import Mathlib

/-!
# BssidLister.go: a shallow embedding

The program authenticates against a controller, fetches the access point
inventory (`getSSIDs`), and prints one CSV row per WLAN entry (`main`).

Go strings are embedded as `String`, Go `int` as `Int`, Go `uint` as `Nat`,
Go `error` values as `Option String` (the message, `none` for `nil`).
The external collaborators (the REST client library, the HTTP response, the
JSON decoder) are gathered in a `World` record that the program is run against.
Every externally visible effect is appended to a trace of `Event`s.
-/

namespace BssidLister

/-! ## Data model (lines 18-40) -/

/-- AppConfig stores the application configuration once parsed by flags. -/
structure appConfig where
  XCAHost : String
  XCAPort : Nat
  HTTPTimeout : Nat
  XCAUserID : String
  XCASecret : String
  PrintVersion : Bool
deriving DecidableEq, Repr

/-- Element of `Radios[].Wlan` in `apResultSet`. -/
structure WlanEntry where
  Bssid : String
  Ssid : String
deriving DecidableEq, Repr

/-- Element of `Radios` in `apResultSet`. -/
structure Radio where
  RadioIndex : Int
  Wlan : List WlanEntry
deriving DecidableEq, Repr

/-- Element of `apResultSet`. -/
structure AccessPoint where
  SerialNumber : String
  CanEdit : Bool
  CanDelete : Bool
  Proxied : String
  Radios : List Radio
deriving DecidableEq, Repr

/-- The decoded result: a slice of access points. -/
abbrev apResultSet := List AccessPoint

/-! ## Constants (lines 42-58) -/

def toolName : String := "BssidLister.go"
def toolVersion : String := "0.2.0"
def toolID : String := toolName ++ "/" ++ toolVersion
def toolURL : String := "https://gitlab.com/rbrt-weiler/xca-rest-bssidlister-go"
def envFileName : String := ".xcaenv"
def jsonMimeType : String := "application/json"

def errSuccess : Int := 0
def errUsage : Int := 1
def errXCAAuth : Int := 10
def errAPICall : Int := 11

/-- The constant `http.StatusOK`. -/
def httpStatusOK : Int := 200

/-! ## Library routines used by the program -/

/-- The digit table of `strconv`, restricted to base 10. -/
def digitChar : Nat → Char
  | 0 => '0' | 1 => '1' | 2 => '2' | 3 => '3' | 4 => '4'
  | 5 => '5' | 6 => '6' | 7 => '7' | 8 => '8' | _ => '9'

/-- The digit loop of `strconv.formatBits` in base 10: the least significant
digit is produced first and written in front of what is already there. -/
def formatBits : Nat → Nat → List Char → List Char
  | 0, _, acc => acc
  | fuel + 1, u, acc =>
    if u < 10 then digitChar u :: acc
    else formatBits fuel (u / 10) (digitChar (u % 10) :: acc)

/-- Decimal rendering of an unsigned value. -/
def formatUint (u : Nat) : List Char := formatBits (u + 1) u []

/-- The verb `%d` applied to a Go `int`. -/
def fmtInteger (n : Int) : List Char :=
  if n < 0 then '-' :: formatUint n.natAbs else formatUint n.natAbs

/-- Operand of a formatting call. -/
inductive Arg where
  | str (s : String)
  | int (n : Int)
deriving DecidableEq, Repr

/-- One formatting verb applied to the next operand: `%s` on a string (or on
an error, through its message) and `%d` on an integer are the verbs the
program uses, and `%%` stands for a percent sign. The result is the text
produced and the operands left. -/
def formatVerb : Char → List Arg → Option (List Char × List Arg)
  | '%', args => some (['%'], args)
  | 's', Arg.str s :: more => some (s.data, more)
  | 'd', Arg.int n :: more => some (fmtInteger n, more)
  | _, _ => none

/-- The scanning loop of `fmt.Sprintf`: a `%` followed by a verb consumes one
operand, every other character of the format is copied. -/
def sprintfAux : List Char → List Arg → List Char
  | [], _ => []
  | [c], _ => [c]
  | c :: v :: rest, args =>
    if c = '%' then
      match formatVerb v args with
      | some (out, more) => out ++ sprintfAux rest more
      | none => c :: sprintfAux (v :: rest) args
    else c :: sprintfAux (v :: rest) args

/-- Model of `fmt.Sprintf`. -/
def sprintf (format : String) (args : List Arg) : String :=
  String.mk (sprintfAux format.data args)

/-- Search loop of `strings.Index`: the first position at which `sub` occurs,
or `-1`. -/
def stringsIndexFrom (sub : List Char) : List Char → Nat → Int
  | [], i => if sub = [] then (i : Int) else -1
  | c :: t, i => if sub.isPrefixOf (c :: t) then (i : Int) else stringsIndexFrom sub t (i + 1)

/-- Model of `strings.Index(s, substr)`. -/
def stringsIndex (s substr : String) : Int := stringsIndexFrom substr.data s.data 0

/-! ## External collaborators -/

/-- The settings of `xcarestclient.RESTClient` that the program touches. -/
structure RESTClient where
  HTTPHost : String
  HTTPPort : Nat
  HTTPTimeout : Nat
  InsecureHTTPS : Bool
  UserID : String
  Secret : String
  UserAgent : String
deriving DecidableEq, Repr

/-- The parts of `http.Response` that `getSSIDs` inspects: the status code,
the value of `Header.Get("Content-Type")`, and what `ioutil.ReadAll(Body)`
returns. -/
structure Response where
  StatusCode : Int
  ContentType : String
  ReadAll : Except String String

/-- Everything outside the program: the client library and the decoder.
`libTimeout` is the timeout that `xcarestclient.New` configures on its own. -/
structure World where
  libTimeout : Nat
  Authenticate : RESTClient → Option String
  GetRequest : RESTClient → String → Option String
  PerformRequest : RESTClient → String → String → Except String Response
  Unmarshal : String → apResultSet → Option String × apResultSet

/-- Externally visible effects, in the order in which they happen. -/
inductive Event where
  | authenticate (c : RESTClient)
  | getRequest (c : RESTClient) (path : String)
  | performRequest (c : RESTClient) (path rawQuery : String)
  | bodyRead
  | bodyClose
  | unmarshal (body : String)
  | stdout (s : String)
deriving DecidableEq, Repr

/-- The package-level variables (lines 60-65) and the trace of effects. -/
structure State where
  config : appConfig
  xca : RESTClient
  apResult : apResultSet
  trace : List Event
deriving DecidableEq, Repr

/-- Appends one effect to the trace. -/
def State.record (st : State) (e : Event) : State :=
  { st with trace := st.trace ++ [e] }

/-- Model of `fmt.Printf`: the formatted text is one write to standard output. -/
def printf (format : String) (args : List Arg) (st : State) : State :=
  st.record (Event.stdout (sprintf format args))

/-- Model of `fmt.Println` on one string. -/
def println (s : String) (st : State) : State :=
  st.record (Event.stdout (s ++ "\n"))

/-- The writes to standard output recorded in a trace, oldest first. -/
def stdoutOf (st : State) : List String :=
  st.trace.filterMap fun e => match e with
    | Event.stdout s => some s
    | _ => none

/-- How often the response body was closed. -/
def closeCount (st : State) : Nat := st.trace.count Event.bodyClose

/-- Process start: all package-level variables hold their zero values. -/
def State.zero : State :=
  { config := ⟨"", 0, 0, "", "", false⟩
    xca := ⟨"", 0, 0, false, "", "", ""⟩
    apResult := []
    trace := [] }

/-- The call `xcarestclient.New(host)`. -/
def RESTClient.New (libTimeout : Nat) (host : String) : RESTClient :=
  { HTTPHost := host, HTTPPort := 5825, HTTPTimeout := libTimeout,
    InsecureHTTPS := false, UserID := "", Secret := "", UserAgent := "" }

def RESTClient.SetPort (c : RESTClient) (port : Nat) : RESTClient :=
  { c with HTTPPort := port }

def RESTClient.UseInsecureHTTPS (c : RESTClient) : RESTClient :=
  { c with InsecureHTTPS := true }

def RESTClient.SetAuth (c : RESTClient) (userID secret : String) : RESTClient :=
  { c with UserID := userID, Secret := secret }

def RESTClient.SetUserAgent (c : RESTClient) (ua : String) : RESTClient :=
  { c with UserAgent := ua }

/-! ## getSSIDs (lines 67-103) -/

/-- Lines 92-102 of `getSSIDs`: the body is read and decoded into `apResult`. -/
def readAndDecode (w : World) (res : Response) (st : State) : Option String × State :=
  let st := st.record Event.bodyRead
  match res.ReadAll with
  | Except.error bodyErr =>
    (some (sprintf "could not read server response: %s" [Arg.str bodyErr]), st)
  | Except.ok body =>
    let st := st.record (Event.unmarshal body)
    match w.Unmarshal body st.apResult with
    | (some jsonErr, r) =>
      (some (sprintf "could not read server response: %s" [Arg.str jsonErr]),
        { st with apResult := r })
    | (none, r) => (none, { st with apResult := r })

/-- Lines 86-102 of `getSSIDs`: what runs after the `defer` statement, first
of all the content type check. -/
def getSSIDsBody (w : World) (res : Response) (st : State) : Option String × State :=
  let resContentType := res.ContentType
  if stringsIndex resContentType jsonMimeType ≠ 0 then
    (some (sprintf "Content-Type %s returned instead of %s"
      [Arg.str resContentType, Arg.str jsonMimeType]), st)
  else readAndDecode w res st

/-- The function `getSSIDs`. The deferred `res.Body.Close()` is registered on
line 84, after the status check, and runs when the function returns from any
later point. -/
def getSSIDs (w : World) (st : State) : Option String × State :=
  let st := st.record (Event.getRequest st.xca "v1/aps")
  match w.GetRequest st.xca "v1/aps" with
  | some reqErr =>
    (some (sprintf "could not create HTTP(S) request: %s" [Arg.str reqErr]), st)
  | none =>
    let rawQuery := "inventory=true"
    let st := st.record (Event.performRequest st.xca "v1/aps" rawQuery)
    match w.PerformRequest st.xca "v1/aps" rawQuery with
    | Except.error resErr =>
      (some (sprintf "could not connect to XCA: %s" [Arg.str resErr]), st)
    | Except.ok res =>
      if res.StatusCode ≠ httpStatusOK then
        (some (sprintf "got status code %d instead of %d"
          [Arg.int res.StatusCode, Arg.int httpStatusOK]), st)
      else
        let out := getSSIDsBody w res st
        (out.1, out.2.record Event.bodyClose)

/-! ## init (lines 140-159) -/

/-- The path that `init` checks in the current directory (line 143). -/
def localEnvFile : String := sprintf "./%s" [Arg.str envFileName]

/-- The path that `init` checks in the home directory (line 152). -/
def homeEnvFile (homeDir : String) : String :=
  sprintf "%s/%s" [Arg.str homeDir, Arg.str ".xmcenv"]

/-- The file named by the usage text (lines 132-134) for the home directory. -/
def usageHomeEnvFile (homeDir : String) : String :=
  sprintf "%s/%s" [Arg.str homeDir, Arg.str envFileName]

/-- The paths `init` looks up, given what `os.UserHomeDir` returns. -/
def initEnvFiles (home : Except String String) : List String :=
  match home with
  | Except.ok homeDir => [localEnvFile, homeEnvFile homeDir]
  | Except.error _ => [localEnvFile]

/-! ## main (lines 161-197) -/

/-- The text of one data line: the formatting call of line 191. -/
def dataRow (serial : String) (radioIndex : Int) (wlan : WlanEntry) : String :=
  sprintf "\"%s\",\"%d\",\"%s\",\"%s\"\n"
    [Arg.str serial, Arg.int radioIndex, Arg.str wlan.Bssid, Arg.str wlan.Ssid]

/-- The inner loop, lines 190-192. -/
def renderWlan (serial : String) (radioIndex : Int) (wlans : List WlanEntry)
    (st : State) : State :=
  wlans.foldl (fun st wlan =>
    printf "\"%s\",\"%d\",\"%s\",\"%s\"\n"
      [Arg.str serial, Arg.int radioIndex, Arg.str wlan.Bssid, Arg.str wlan.Ssid] st) st

/-- The middle loop, lines 189-193. -/
def renderRadios (singleAP : AccessPoint) (st : State) : State :=
  singleAP.Radios.foldl (fun st radio =>
    renderWlan singleAP.SerialNumber radio.RadioIndex radio.Wlan st) st

/-- The outer loop, lines 188-194. -/
def renderAPs (aps : apResultSet) (st : State) : State :=
  aps.foldl (fun st singleAP => renderRadios singleAP st) st

/-- The render step of `main`, lines 187-194: the header line, then the loops
over the stored result. -/
def render (st : State) : State :=
  let st := printf "\"%s\",\"%s\",\"%s\",\"%s\"\n"
    [Arg.str "serial", Arg.str "radio", Arg.str "bssid", Arg.str "ssid"] st
  renderAPs st.apResult st

/-- Lines 171-175 of `main`: the client is created and configured. -/
def setupClient (w : World) (st : State) : State :=
  let xca := RESTClient.New w.libTimeout st.config.XCAHost
  let xca := xca.SetPort st.config.XCAPort
  let xca := xca.UseInsecureHTTPS
  let xca := xca.SetAuth st.config.XCAUserID st.config.XCASecret
  let xca := xca.SetUserAgent toolID
  { st with xca := xca }

/-- The function `main`, run on the configuration that `parseCLIOptions` left
in `config`. The result is the exit code and the final state. -/
def main (w : World) (cfg : appConfig) : Int × State :=
  let st := { State.zero with config := cfg }
  if st.config.PrintVersion then
    (errSuccess, println toolID st)
  else
    let st := setupClient w st
    let st := st.record (Event.authenticate st.xca)
    match w.Authenticate st.xca with
    | some authErr =>
      (errXCAAuth, printf "Could not authenticate: %s\n" [Arg.str authErr] st)
    | none =>
      match getSSIDs w st with
      | (some ssidErr, st) =>
        (errAPICall, printf "Could not obtain AP list: %s\n" [Arg.str ssidErr] st)
      | (none, st) => (errSuccess, render st)

/-- The data lines that the loops of `main` write for a result. -/
def renderedRows (aps : apResultSet) : List String :=
  stdoutOf (renderAPs aps State.zero)

/-- The state of `getSSIDs` once the request was built and performed: both
calls are on the trace. -/
def requested (st : State) : State :=
  (st.record (Event.getRequest st.xca "v1/aps")).record
    (Event.performRequest st.xca "v1/aps" "inventory=true")

/-- The state of `main` at the call of `Authenticate`: the client is configured
and the call is on the trace. -/
def authState (w : World) (cfg : appConfig) : State :=
  (setupClient w { State.zero with config := cfg }).record
    (Event.authenticate (setupClient w { State.zero with config := cfg }).xca)

/-! ## Sample inputs -/

/-- A response with a readable body. -/
def sampleResponse (status : Int) (contentType : String) : Response :=
  { StatusCode := status, ContentType := contentType, ReadAll := Except.ok "[]" }

/-- A world in which `Authenticate` returns `auth`, every request is answered
by `res`, and the decoder yields the empty result. -/
def sampleWorld (auth : Option String) (res : Response) : World :=
  { libTimeout := 5
    Authenticate := fun _ => auth
    GetRequest := fun _ _ => none
    PerformRequest := fun _ _ _ => Except.ok res
    Unmarshal := fun _ _ => (none, []) }

/-- A configuration with a timeout of 30 seconds. -/
def sampleConfig : appConfig :=
  { XCAHost := "xca.example", XCAPort := 5825, HTTPTimeout := 30,
    XCAUserID := "user", XCASecret := "secret", PrintVersion := false }

/-! ## Specification-side definitions -/

/-- Specification: the header row. -/
def csvHeader : String := "\"serial\",\"radio\",\"bssid\",\"ssid\"\n"

/-- Specification: the number of WLAN entries over all radios of all access
points. -/
def leafCount (aps : apResultSet) : Nat :=
  (aps.map fun ap => (ap.Radios.map fun radio => radio.Wlan.length).sum).sum

/-- Specification: the rows of one radio, in WLAN order. -/
def rowsOfRadio (serial : String) (radio : Radio) : List String :=
  radio.Wlan.map fun wlan => dataRow serial radio.RadioIndex wlan

/-- Specification: the rows of one access point, radio after radio. -/
def rowsOfAP (ap : AccessPoint) : List String :=
  (ap.Radios.map fun radio => rowsOfRadio ap.SerialNumber radio).flatten

/-- Specification: depth-first traversal in input order. -/
def rowsOfResult (aps : apResultSet) : List String :=
  (aps.map rowsOfAP).flatten

/-- Specification: the number written by a string of decimal digits. -/
def decimalValue (ds : List Char) : Nat :=
  ds.foldl (fun acc c => 10 * acc + (c.toNat - 48)) 0

/-! ## Lemmas on the output trace -/

theorem stdoutOf_record_stdout (st : State) (s : String) :
    stdoutOf (st.record (Event.stdout s)) = stdoutOf st ++ [s] := by
  simp [stdoutOf, State.record, List.filterMap_append]

theorem stdoutOf_printf (format : String) (args : List Arg) (st : State) :
    stdoutOf (printf format args st) = stdoutOf st ++ [sprintf format args] :=
  stdoutOf_record_stdout st _

theorem stdoutOf_renderWlan (serial : String) (idx : Int) (wlans : List WlanEntry)
    (st : State) :
    stdoutOf (renderWlan serial idx wlans st)
      = stdoutOf st ++ wlans.map (fun wlan => dataRow serial idx wlan) := by
  induction wlans generalizing st with
  | nil => simp [renderWlan]
  | cons wlan rest ih =>
    have step := ih (printf "\"%s\",\"%d\",\"%s\",\"%s\"\n"
      [Arg.str serial, Arg.int idx, Arg.str wlan.Bssid, Arg.str wlan.Ssid] st)
    simp only [renderWlan, List.foldl_cons] at step ⊢
    rw [step, stdoutOf_printf]
    simp [dataRow]

theorem stdoutOf_renderRadiosList (serial : String) (radios : List Radio) (st : State) :
    stdoutOf (radios.foldl (fun st radio =>
        renderWlan serial radio.RadioIndex radio.Wlan st) st)
      = stdoutOf st ++ (radios.map fun radio => rowsOfRadio serial radio).flatten := by
  induction radios generalizing st with
  | nil => simp
  | cons radio rest ih =>
    simp only [List.foldl_cons, List.map_cons, List.flatten_cons]
    rw [ih, stdoutOf_renderWlan]
    simp [rowsOfRadio]

theorem stdoutOf_renderRadios (ap : AccessPoint) (st : State) :
    stdoutOf (renderRadios ap st) = stdoutOf st ++ rowsOfAP ap :=
  stdoutOf_renderRadiosList ap.SerialNumber ap.Radios st

theorem stdoutOf_renderAPs (aps : apResultSet) (st : State) :
    stdoutOf (renderAPs aps st) = stdoutOf st ++ rowsOfResult aps := by
  induction aps generalizing st with
  | nil => simp [renderAPs, rowsOfResult]
  | cons ap rest ih =>
    have step := ih (renderRadios ap st)
    simp only [renderAPs, List.foldl_cons] at step ⊢
    rw [step, stdoutOf_renderRadios]
    simp [rowsOfResult]

theorem renderedRows_eq (aps : apResultSet) : renderedRows aps = rowsOfResult aps := by
  have h : stdoutOf State.zero = [] := rfl
  rw [renderedRows, stdoutOf_renderAPs, h, List.nil_append]

theorem header_text :
    sprintf "\"%s\",\"%s\",\"%s\",\"%s\"\n"
      [Arg.str "serial", Arg.str "radio", Arg.str "bssid", Arg.str "ssid"] = csvHeader := by
  decide

theorem stdoutOf_render (st : State) :
    stdoutOf (render st) = stdoutOf st ++ csvHeader :: rowsOfResult st.apResult := by
  simp only [render]
  rw [stdoutOf_renderAPs, stdoutOf_printf, header_text]
  simp [printf, State.record]

theorem rowsOfResult_append (a b : apResultSet) :
    rowsOfResult (a ++ b) = rowsOfResult a ++ rowsOfResult b := by
  simp [rowsOfResult]

theorem rowsOfResult_length (aps : apResultSet) :
    (rowsOfResult aps).length = leafCount aps := by
  simp [rowsOfResult, rowsOfAP, rowsOfRadio, leafCount, List.length_flatten,
    Function.comp_def]

/-! ## Lemmas on decimal rendering -/

theorem digitChar_toNat (d : Nat) (h : d < 10) : (digitChar d).toNat - 48 = d := by
  interval_cases d <;> rfl

theorem digitChar_isDigit (d : Nat) : (digitChar d).isDigit = true := by
  unfold digitChar
  split <;> rfl

theorem digitChar_eq_zero (d : Nat) (h : d < 10) (hz : digitChar d = '0') : d = 0 := by
  interval_cases d <;> first | rfl | (exact absurd hz (by decide))

theorem formatBits_eq (fuel u : Nat) (acc : List Char) (h : u < fuel) :
    formatBits fuel u acc
      = (if u = 0 then ['0'] else (Nat.digits 10 u).reverse.map digitChar) ++ acc := by
  induction fuel generalizing u acc with
  | zero => omega
  | succ fuel ih =>
    unfold formatBits
    by_cases hu : u < 10
    · rw [if_pos hu]
      by_cases h0 : u = 0
      · subst h0; rfl
      · rw [if_neg h0, Nat.digits_of_lt 10 u h0 hu]; rfl
    · rw [if_neg hu]
      have hdiv : u / 10 < fuel := by omega
      have hq : u / 10 ≠ 0 := by omega
      have h0 : u ≠ 0 := by omega
      rw [ih (u / 10) _ hdiv, if_neg hq, if_neg h0]
      rw [Nat.digits_def' (by norm_num : 1 < 10) (Nat.pos_of_ne_zero h0)]
      simp

theorem formatUint_eq (u : Nat) :
    formatUint u = if u = 0 then ['0'] else (Nat.digits 10 u).reverse.map digitChar := by
  rw [formatUint, formatBits_eq (u + 1) u [] (Nat.lt_succ_self u), List.append_nil]

theorem decimalValue_digits (l : List Nat) (h : ∀ d ∈ l, d < 10) :
    decimalValue (l.reverse.map digitChar) = Nat.ofDigits 10 l := by
  induction l with
  | nil => rfl
  | cons d t ih =>
    have ht : ∀ x ∈ t, x < 10 := fun x hx => h x (List.mem_cons_of_mem _ hx)
    have hd : d < 10 := h d (List.mem_cons_self _ _)
    have ih2 := ih ht
    unfold decimalValue at ih2 ⊢
    rw [List.reverse_cons, List.map_append, List.foldl_append, ih2, Nat.ofDigits_cons]
    simp only [List.map_cons, List.map_nil, List.foldl_cons, List.foldl_nil]
    rw [digitChar_toNat d hd]
    ring

theorem decimalValue_formatUint (u : Nat) : decimalValue (formatUint u) = u := by
  rw [formatUint_eq]
  by_cases h0 : u = 0
  · subst h0; rfl
  · rw [if_neg h0, decimalValue_digits _ (fun d hd => Nat.digits_lt_base (by norm_num) hd)]
    exact Nat.ofDigits_digits 10 u

theorem formatUint_isDigit (u : Nat) : ∀ c ∈ formatUint u, c.isDigit = true := by
  intro c hc
  rw [formatUint_eq] at hc
  by_cases h0 : u = 0
  · rw [if_pos h0] at hc
    simp only [List.mem_singleton] at hc
    subst hc; rfl
  · rw [if_neg h0, List.mem_map] at hc
    obtain ⟨d, _, rfl⟩ := hc
    exact digitChar_isDigit d

theorem formatUint_ne_nil (u : Nat) : formatUint u ≠ [] := by
  rw [formatUint_eq]
  by_cases h0 : u = 0
  · rw [if_pos h0]; simp
  · rw [if_neg h0]
    simpa using (Nat.digits_ne_nil_iff_ne_zero.mpr h0)

theorem formatUint_leading (u : Nat) (h : (formatUint u).head? = some '0') : u = 0 := by
  by_contra h0
  rw [formatUint_eq, if_neg h0] at h
  have hne : Nat.digits 10 u ≠ [] := Nat.digits_ne_nil_iff_ne_zero.mpr h0
  have hlast := Nat.getLast_digit_ne_zero 10 h0
  have hmem : (Nat.digits 10 u).getLast hne ∈ Nat.digits 10 u := List.getLast_mem hne
  have hlt := Nat.digits_lt_base (by norm_num : 1 < 10) hmem
  rw [List.head?_map, List.head?_reverse, List.getLast?_eq_getLast _ hne] at h
  simp only [Option.map_some', Option.some.injEq] at h
  exact hlast (digitChar_eq_zero _ hlt h)

/-! ## Lemmas on the substring search -/

theorem stringsIndexFrom_bound (sub s : List Char) (j : Nat) :
    stringsIndexFrom sub s j = -1 ∨ (j : Int) ≤ stringsIndexFrom sub s j := by
  induction s generalizing j with
  | nil =>
    unfold stringsIndexFrom
    split
    · exact Or.inr le_rfl
    · exact Or.inl rfl
  | cons c t ih =>
    unfold stringsIndexFrom
    split
    · exact Or.inr le_rfl
    · rcases ih (j + 1) with h | h
      · exact Or.inl h
      · right
        have : (j : Int) ≤ ((j + 1 : Nat) : Int) := by push_cast; omega
        exact le_trans this h

theorem stringsIndexFrom_eq_start (sub s : List Char) (i : Nat) :
    stringsIndexFrom sub s i = (i : Int) ↔ sub <+: s := by
  cases s with
  | nil =>
    unfold stringsIndexFrom
    by_cases h : sub = []
    · simp [h]
    · rw [if_neg h]
      constructor
      · intro h1; omega
      · intro h1; exact absurd (List.prefix_nil.mp h1) h
  | cons c t =>
    unfold stringsIndexFrom
    by_cases h : sub.isPrefixOf (c :: t) = true
    · rw [if_pos h]
      simpa using List.isPrefixOf_iff_prefix.mp h
    · rw [if_neg h]
      have hp : ¬ sub <+: c :: t := fun hp => h (List.isPrefixOf_iff_prefix.mpr hp)
      constructor
      · intro h1
        rcases stringsIndexFrom_bound sub t (i + 1) with h2 | h2
        · omega
        · push_cast at h2; omega
      · intro h1; exact absurd h1 hp

theorem stringsIndex_eq_zero (s substr : String) :
    stringsIndex s substr = 0 ↔ substr.data <+: s.data := by
  have h := stringsIndexFrom_eq_start substr.data s.data 0
  simpa [stringsIndex] using h

/-! ## Lemmas on getSSIDs -/

theorem mk_ne_of_head (a b : Char) (l m : List Char) (h : a ≠ b) :
    String.mk (a :: l) ≠ String.mk (b :: m) := by
  intro e
  injection e with e
  injection e with e1
  exact h e1

theorem readAndDecode_error_text (w : World) (res : Response) (st : State) (c : String) :
    (readAndDecode w res st).1
      ≠ some (sprintf "Content-Type %s returned instead of %s"
          [Arg.str c, Arg.str jsonMimeType]) := by
  unfold readAndDecode
  cases hr : res.ReadAll with
  | error e =>
    simp [sprintf, sprintfAux, formatVerb]
    exact mk_ne_of_head 'c' 'C' _ _ (by decide)
  | ok body =>
    simp only []
    cases hu : w.Unmarshal body (st.record Event.bodyRead |>.record (Event.unmarshal body)).apResult with
    | mk err r =>
      cases err with
      | none => simp [hu]
      | some e =>
        simp [hu, sprintf, sprintfAux, formatVerb]
        exact mk_ne_of_head 'c' 'C' _ _ (by decide)

theorem contentType_error_text (c : String) :
    sprintf "Content-Type %s returned instead of %s" [Arg.str c, Arg.str jsonMimeType]
      = "Content-Type " ++ c ++ " returned instead of application/json" := by
  apply String.ext
  simp [sprintf, sprintfAux, formatVerb, jsonMimeType]

theorem status_error_text (code : Int) :
    sprintf "got status code %d instead of %d" [Arg.int code, Arg.int httpStatusOK]
      = "got status code " ++ String.mk (fmtInteger code) ++ " instead of 200" := by
  apply String.ext
  have h200 : fmtInteger httpStatusOK = ['2', '0', '0'] := by decide
  simp [sprintf, sprintfAux, formatVerb, h200]

/-! ## Lemmas on main -/

theorem renderWlan_apResult (serial : String) (idx : Int) (wlans : List WlanEntry)
    (st : State) : (renderWlan serial idx wlans st).apResult = st.apResult := by
  induction wlans generalizing st with
  | nil => rfl
  | cons wlan rest ih =>
    have step := ih (printf "\"%s\",\"%d\",\"%s\",\"%s\"\n"
      [Arg.str serial, Arg.int idx, Arg.str wlan.Bssid, Arg.str wlan.Ssid] st)
    simp only [renderWlan, List.foldl_cons] at step ⊢
    rw [step]; rfl

theorem renderRadios_apResult (ap : AccessPoint) (st : State) :
    (renderRadios ap st).apResult = st.apResult := by
  unfold renderRadios
  generalize ap.Radios = radios
  induction radios generalizing st with
  | nil => rfl
  | cons radio rest ih =>
    simp only [List.foldl_cons]
    rw [ih, renderWlan_apResult]

theorem renderAPs_apResult (aps : apResultSet) (st : State) :
    (renderAPs aps st).apResult = st.apResult := by
  induction aps generalizing st with
  | nil => rfl
  | cons ap rest ih =>
    have step := ih (renderRadios ap st)
    simp only [renderAPs, List.foldl_cons] at step ⊢
    rw [step, renderRadios_apResult]

theorem render_apResult (st : State) : (render st).apResult = st.apResult := by
  simp only [render]
  rw [renderAPs_apResult]; rfl

theorem stdoutOf_record_other (st : State) (e : Event) (h : ∀ s, e ≠ Event.stdout s) :
    stdoutOf (st.record e) = stdoutOf st := by
  cases e <;> first
    | (exact absurd rfl (h _))
    | simp [stdoutOf, State.record, List.filterMap_append]

theorem stdoutOf_apResult (st : State) (r : apResultSet) :
    stdoutOf { st with apResult := r } = stdoutOf st := rfl

theorem stdoutOf_readAndDecode (w : World) (res : Response) (st : State) :
    stdoutOf (readAndDecode w res st).2 = stdoutOf st := by
  have h1 : stdoutOf (st.record Event.bodyRead) = stdoutOf st :=
    stdoutOf_record_other st _ (by intro s; simp)
  unfold readAndDecode
  cases hr : res.ReadAll with
  | error e => exact h1
  | ok body =>
    have h2 : stdoutOf ((st.record Event.bodyRead).record (Event.unmarshal body))
        = stdoutOf st := by
      rw [stdoutOf_record_other _ _ (by intro s; simp), h1]
    simp only []
    cases hu : w.Unmarshal body
        ((st.record Event.bodyRead).record (Event.unmarshal body)).apResult with
    | mk err r =>
      cases err with
      | none => simpa [hu, stdoutOf_apResult] using h2
      | some e => simpa [hu, stdoutOf_apResult] using h2

theorem stdoutOf_getSSIDs (w : World) (st : State) :
    stdoutOf (getSSIDs w st).2 = stdoutOf st := by
  have h1 : stdoutOf (st.record (Event.getRequest st.xca "v1/aps")) = stdoutOf st :=
    stdoutOf_record_other st _ (by intro s; simp)
  have h2 : stdoutOf ((st.record (Event.getRequest st.xca "v1/aps")).record
      (Event.performRequest st.xca "v1/aps" "inventory=true")) = stdoutOf st := by
    rw [stdoutOf_record_other _ _ (by intro s; simp), h1]
  unfold getSSIDs
  simp only []
  cases hq : w.GetRequest (st.record (Event.getRequest st.xca "v1/aps")).xca "v1/aps" with
  | some e => exact h1
  | none =>
    simp only []
    cases hp : w.PerformRequest
        ((st.record (Event.getRequest st.xca "v1/aps")).record
          (Event.performRequest (st.record (Event.getRequest st.xca "v1/aps")).xca
            "v1/aps" "inventory=true")).xca "v1/aps" "inventory=true" with
    | error e => exact h2
    | ok res =>
      simp only []
      split
      · exact h2
      · rw [stdoutOf_record_other _ _ (by intro s; simp)]
        unfold getSSIDsBody
        simp only []
        split
        · exact h2
        · rw [stdoutOf_readAndDecode]; exact h2

theorem stdoutOf_setup (w : World) (cfg : appConfig) :
    stdoutOf ((setupClient w { State.zero with config := cfg }).record
      (Event.authenticate (setupClient w { State.zero with config := cfg }).xca)) = [] := rfl

theorem main_success (w : World) (cfg : appConfig) (hv : cfg.PrintVersion = false)
    (h0 : (main w cfg).1 = errSuccess) :
    stdoutOf (main w cfg).2 = csvHeader :: rowsOfResult (main w cfg).2.apResult := by
  unfold main at h0 ⊢
  simp only [hv, Bool.false_eq_true, if_false] at h0 ⊢
  cases ha : w.Authenticate ((setupClient w { State.zero with config := cfg }).record
      (Event.authenticate (setupClient w { State.zero with config := cfg }).xca)).xca with
  | some e =>
    rw [ha] at h0
    simp only [errXCAAuth, errSuccess] at h0
    omega
  | none =>
    rw [ha] at h0
    simp only [] at h0 ⊢
    have hs := stdoutOf_getSSIDs w ((setupClient w { State.zero with config := cfg }).record
      (Event.authenticate (setupClient w { State.zero with config := cfg }).xca))
    cases hg : getSSIDs w ((setupClient w { State.zero with config := cfg }).record
      (Event.authenticate (setupClient w { State.zero with config := cfg }).xca)) with
    | mk err st2 =>
      rw [hg] at h0 hs
      cases err with
      | some e =>
        simp only [errAPICall, errSuccess] at h0
        omega
      | none =>
        simp only [] at hs ⊢
        rw [stdoutOf_render, render_apResult, hs, stdoutOf_setup, List.nil_append]

theorem getSSIDs_response (w : World) (st : State) (res : Response)
    (hreq : w.GetRequest st.xca "v1/aps" = none)
    (hres : w.PerformRequest st.xca "v1/aps" "inventory=true" = Except.ok res) :
    getSSIDs w st
      = if res.StatusCode ≠ httpStatusOK then
          (some (sprintf "got status code %d instead of %d"
            [Arg.int res.StatusCode, Arg.int httpStatusOK]), requested st)
        else ((getSSIDsBody w res (requested st)).1,
          (getSSIDsBody w res (requested st)).2.record Event.bodyClose) := by
  have e1 : (st.record (Event.getRequest st.xca "v1/aps")).xca = st.xca := rfl
  have e2 : ((st.record (Event.getRequest st.xca "v1/aps")).record
      (Event.performRequest st.xca "v1/aps" "inventory=true")).xca = st.xca := rfl
  unfold getSSIDs
  simp only [e1, e2, hreq, hres]
  rfl

theorem closeCount_record (st : State) (e : Event) :
    closeCount (st.record e) = closeCount st + (if e = Event.bodyClose then 1 else 0) := by
  unfold closeCount State.record
  simp only [List.count_append, List.count_cons, List.count_nil, beq_iff_eq]
  omega

theorem closeCount_apResult (st : State) (r : apResultSet) :
    closeCount { st with apResult := r } = closeCount st := rfl

theorem closeCount_requested (st : State) : closeCount (requested st) = closeCount st := by
  unfold requested
  rw [closeCount_record, closeCount_record]
  simp

theorem closeCount_readAndDecode (w : World) (res : Response) (st : State) :
    closeCount (readAndDecode w res st).2 = closeCount st := by
  have h1 : closeCount (st.record Event.bodyRead) = closeCount st := by
    rw [closeCount_record]; simp
  unfold readAndDecode
  cases hr : res.ReadAll with
  | error e => exact h1
  | ok body =>
    have h2 : closeCount ((st.record Event.bodyRead).record (Event.unmarshal body))
        = closeCount st := by
      rw [closeCount_record, h1]; simp
    simp only []
    cases hu : w.Unmarshal body
        ((st.record Event.bodyRead).record (Event.unmarshal body)).apResult with
    | mk err r =>
      cases err with
      | none => simpa [hu, closeCount_apResult] using h2
      | some e => simpa [hu, closeCount_apResult] using h2

theorem closeCount_getSSIDsBody (w : World) (res : Response) (st : State) :
    closeCount (getSSIDsBody w res st).2 = closeCount st := by
  unfold getSSIDsBody
  simp only []
  split
  · rfl
  · exact closeCount_readAndDecode w res st

theorem dataRow_head (serial : String) (idx : Int) (wlan : WlanEntry) :
    ∃ l, dataRow serial idx wlan = String.mk ('"' :: l) := by
  refine ⟨sprintfAux "%s\",\"%d\",\"%s\",\"%s\"\n".data
    [Arg.str serial, Arg.int idx, Arg.str wlan.Bssid, Arg.str wlan.Ssid], ?_⟩
  rfl

theorem main_eq (w : World) (cfg : appConfig) (hv : cfg.PrintVersion = false) :
    main w cfg
      = match w.Authenticate (authState w cfg).xca with
        | some authErr =>
          (errXCAAuth, printf "Could not authenticate: %s\n" [Arg.str authErr]
            (authState w cfg))
        | none =>
          match getSSIDs w (authState w cfg) with
          | (some ssidErr, st) =>
            (errAPICall, printf "Could not obtain AP list: %s\n" [Arg.str ssidErr] st)
          | (none, st) => (errSuccess, render st) := by
  unfold main
  simp only [hv, Bool.false_eq_true, if_false]
  rfl

theorem auth_error_text (e : String) :
    sprintf "Could not authenticate: %s\n" [Arg.str e]
      = "Could not authenticate: " ++ e ++ "\n" := by
  apply String.ext
  simp [sprintf, sprintfAux, formatVerb]

theorem api_error_text (e : String) :
    sprintf "Could not obtain AP list: %s\n" [Arg.str e]
      = "Could not obtain AP list: " ++ e ++ "\n" := by
  apply String.ext
  simp [sprintf, sprintfAux, formatVerb]

theorem error_line_not_csv (tail : List Char) :
    String.mk ('C' :: tail) ≠ csvHeader
      ∧ ∀ (serial : String) (idx : Int) (wlan : WlanEntry),
          String.mk ('C' :: tail) ≠ dataRow serial idx wlan := by
  constructor
  · exact mk_ne_of_head 'C' '"' _ _ (by decide)
  · intro serial idx wlan
    obtain ⟨l, hl⟩ := dataRow_head serial idx wlan
    rw [hl]
    exact mk_ne_of_head 'C' '"' _ _ (by decide)

/-! ## The claims -/

/-- C1: the render step of `main` writes the header line first and then exactly
one data line per WLAN entry, summed over all radios of all access points; on
the empty result it writes the header line and nothing else; and a run of
`main` that ends with exit code 0 (no version request) has written exactly
that on standard output. -/
theorem render_header_and_row_count :
    (∀ st : State, ∃ rows : List String,
        stdoutOf (render st)
          = stdoutOf st ++ "\"serial\",\"radio\",\"bssid\",\"ssid\"\n" :: rows
        ∧ rows.length = leafCount st.apResult)
    ∧ (∀ st : State, stdoutOf (render { st with apResult := [] })
          = stdoutOf st ++ ["\"serial\",\"radio\",\"bssid\",\"ssid\"\n"])
    ∧ (∀ (w : World) (cfg : appConfig), cfg.PrintVersion = false →
        (main w cfg).1 = 0 →
        ∃ rows : List String,
          stdoutOf (main w cfg).2 = "\"serial\",\"radio\",\"bssid\",\"ssid\"\n" :: rows
          ∧ rows.length = leafCount (main w cfg).2.apResult) := by
  refine ⟨?_, ?_, ?_⟩
  · intro st
    exact ⟨rowsOfResult st.apResult, stdoutOf_render st, rowsOfResult_length _⟩
  · intro st
    rw [stdoutOf_render]
    rfl
  · intro w cfg hv h0
    exact ⟨_, main_success w cfg hv h0, rowsOfResult_length _⟩

/-- C2: the data lines follow the depth-first traversal in input order: the
lines of a result are the blocks of its access points one after the other, the
block of an access point is the blocks of its radios one after the other, the
block of a radio is one line per WLAN entry in order; the lines of `a ++ b` are
the lines of `a` followed by the lines of `b`; the block of the access point at
position `i` stands after all lines of the access points before it and before
all lines of those after it; and permuting the access points, the radios of an
access point or the WLAN entries of a radio permutes the blocks and the lines,
none added or dropped. -/
theorem render_rows_depth_first :
    (∀ st : State, stdoutOf (render st)
        = stdoutOf st ++ csvHeader ::
            (st.apResult.map fun ap =>
              (ap.Radios.map fun radio =>
                radio.Wlan.map fun wlan =>
                  dataRow ap.SerialNumber radio.RadioIndex wlan).flatten).flatten)
    ∧ (∀ aps : apResultSet, renderedRows aps
        = (aps.map fun ap => renderedRows [ap]).flatten)
    ∧ (∀ ap : AccessPoint, renderedRows [ap]
        = (ap.Radios.map fun radio =>
            renderedRows [{ ap with Radios := [radio] }]).flatten)
    ∧ (∀ (ap : AccessPoint) (radio : Radio),
        renderedRows [{ ap with Radios := [radio] }]
          = radio.Wlan.map fun wlan => dataRow ap.SerialNumber radio.RadioIndex wlan)
    ∧ (∀ a b : apResultSet, renderedRows (a ++ b) = renderedRows a ++ renderedRows b)
    ∧ (∀ (aps : apResultSet) (i : Nat) (h : i < aps.length),
        renderedRows aps
          = renderedRows (aps.take i) ++ renderedRows [aps.get ⟨i, h⟩]
              ++ renderedRows (aps.drop (i + 1)))
    ∧ (∀ a b : apResultSet, a.Perm b →
        ((a.map fun ap => renderedRows [ap]).Perm (b.map fun ap => renderedRows [ap])
          ∧ (renderedRows a).Perm (renderedRows b)))
    ∧ (∀ (ap : AccessPoint) (rs rs2 : List Radio), rs.Perm rs2 →
        (renderedRows [{ ap with Radios := rs }]).Perm
          (renderedRows [{ ap with Radios := rs2 }]))
    ∧ (∀ (ap : AccessPoint) (idx : Int) (ws ws2 : List WlanEntry), ws.Perm ws2 →
        (renderedRows [{ ap with Radios := [Radio.mk idx ws] }]).Perm
          (renderedRows [{ ap with Radios := [Radio.mk idx ws2] }])) := by
  have single : ∀ ap : AccessPoint, renderedRows [ap] = rowsOfAP ap := by
    intro ap
    rw [renderedRows_eq]
    simp [rowsOfResult]
  have blocks : ∀ aps : apResultSet,
      renderedRows aps = (aps.map fun ap => renderedRows [ap]).flatten := by
    intro aps
    rw [renderedRows_eq, rowsOfResult]
    congr 1
    exact List.map_congr_left (fun ap _ => (single ap).symm)
  have app : ∀ a b : apResultSet,
      renderedRows (a ++ b) = renderedRows a ++ renderedRows b := by
    intro a b
    simp only [renderedRows_eq, rowsOfResult_append]
  refine ⟨?_, blocks, ?_, ?_, app, ?_, ?_, ?_, ?_⟩
  · intro st
    rw [stdoutOf_render]
    rfl
  · intro ap
    rw [single, rowsOfAP]
    congr 1
    apply List.map_congr_left
    intro radio _
    rw [single]
    simp [rowsOfAP]
  · intro ap radio
    rw [single]
    simp [rowsOfAP, rowsOfRadio]
  · intro aps i h
    have hsplit : aps = aps.take i ++ aps.get ⟨i, h⟩ :: aps.drop (i + 1) := by
      rw [List.get_eq_getElem, ← List.drop_eq_getElem_cons h, List.take_append_drop]
    have hcons : aps.get ⟨i, h⟩ :: aps.drop (i + 1)
        = [aps.get ⟨i, h⟩] ++ aps.drop (i + 1) := rfl
    conv_lhs => rw [hsplit]
    rw [app, hcons, app, List.append_assoc]
  · intro a b hp
    have hmap := hp.map (fun ap => renderedRows [ap])
    refine ⟨hmap, ?_⟩
    rw [blocks a, blocks b]
    exact hmap.flatten
  · intro ap rs rs2 hp
    rw [single, single]
    exact (hp.map _).flatten
  · intro ap idx ws ws2 hp
    rw [single, single]
    simp only [rowsOfAP, rowsOfRadio, List.map_cons, List.map_nil, List.flatten_cons,
      List.flatten_nil, List.append_nil]
    exact hp.map _

/-- C3: an access point without radios and a radio without WLAN entries write
no line at all: the block of such an access point or radio is empty, and the
output of the render step is the same with it and without it, wherever it
stands in the input. -/
theorem render_skips_empty :
    (∀ ap : AccessPoint, renderedRows [{ ap with Radios := [] }] = [])
    ∧ (∀ (ap : AccessPoint) (idx : Int),
        renderedRows [{ ap with Radios := [{ RadioIndex := idx, Wlan := [] }] }] = [])
    ∧ (∀ (st : State) (before after : apResultSet) (ap : AccessPoint),
        stdoutOf (render { st with apResult := before ++ { ap with Radios := [] } :: after })
          = stdoutOf (render { st with apResult := before ++ after }))
    ∧ (∀ (st : State) (before after : apResultSet) (ap : AccessPoint)
        (rbefore rafter : List Radio) (idx : Int),
        stdoutOf (render { st with apResult :=
            before ++ { ap with Radios :=
              rbefore ++ { RadioIndex := idx, Wlan := [] } :: rafter } :: after })
          = stdoutOf (render { st with apResult :=
            before ++ { ap with Radios := rbefore ++ rafter } :: after })) := by
  refine ⟨?_, ?_, ?_, ?_⟩
  · intro ap
    rw [renderedRows_eq]
    simp [rowsOfResult, rowsOfAP]
  · intro ap idx
    rw [renderedRows_eq]
    simp [rowsOfResult, rowsOfAP, rowsOfRadio]
  · intro st before after ap
    rw [stdoutOf_render, stdoutOf_render]
    simp [rowsOfResult, rowsOfAP]
    rfl
  · intro st before after ap rbefore rafter idx
    rw [stdoutOf_render, stdoutOf_render]
    simp [rowsOfResult, rowsOfAP, rowsOfRadio]
    rfl

/-- C4: the data line of a leaf with serial number `s`, radio index `n ≥ 0`,
BSSID `b` and SSID `x` is the text `"s","d","b","x"` and a newline, with `s`,
`b`, `x` copied unchanged and `d` the decimal digits of `n`: only digits, of
value `n`, with no leading zero (`0` itself is written `0`); the single-leaf
input AP1 / 0 / AA:BB:CC:00:11:22 / Corp renders as the header line and
`"AP1","0","AA:BB:CC:00:11:22","Corp"`. -/
theorem data_row_text (s b x : String) (n : Nat) (canEdit canDelete : Bool)
    (proxied : String) :
    renderedRows [AccessPoint.mk s canEdit canDelete proxied
        [Radio.mk (n : Int) [WlanEntry.mk b x]]]
      = ["\"" ++ s ++ "\",\"" ++ String.mk (formatUint n) ++ "\",\"" ++ b ++ "\",\""
          ++ x ++ "\"\n"]
    ∧ formatUint n ≠ []
    ∧ (∀ c ∈ formatUint n, c.isDigit = true)
    ∧ decimalValue (formatUint n) = n
    ∧ ((formatUint n).head? = some '0' → formatUint n = ['0'])
    ∧ stdoutOf (render { State.zero with apResult :=
        [AccessPoint.mk "AP1" false false ""
          [Radio.mk 0 [WlanEntry.mk "AA:BB:CC:00:11:22" "Corp"]]] })
      = ["\"serial\",\"radio\",\"bssid\",\"ssid\"\n",
         "\"AP1\",\"0\",\"AA:BB:CC:00:11:22\",\"Corp\"\n"] := by
  refine ⟨?_, formatUint_ne_nil n, formatUint_isDigit n, decimalValue_formatUint n, ?_, ?_⟩
  · rw [renderedRows_eq]
    simp only [rowsOfResult, rowsOfAP, rowsOfRadio, List.map_cons, List.map_nil,
      List.flatten_cons, List.flatten_nil, List.append_nil, List.cons.injEq, and_true]
    apply String.ext
    have hn : ¬ ((n : Int) < 0) := by omega
    simp [dataRow, sprintf, sprintfAux, formatVerb, fmtInteger, hn]
  · intro h
    have h0 := formatUint_leading n h
    subst h0
    rfl
  · decide

/-- C5: for a response with status 200 and Content-Type value `c`, `getSSIDs`
returns the content type error carrying `c` exactly when `c` does not begin
with `application/json`; when `c` begins with it the function goes on to read
and decode the body, and when it does not, nothing is read or decoded. -/
theorem getSSIDs_content_type_check (w : World) (st : State) (res : Response)
    (hreq : w.GetRequest st.xca "v1/aps" = none)
    (hres : w.PerformRequest st.xca "v1/aps" "inventory=true" = Except.ok res)
    (hstatus : res.StatusCode = 200) :
    ((getSSIDs w st).1
        = some ("Content-Type " ++ res.ContentType
            ++ " returned instead of application/json")
      ↔ ¬ ("application/json".data <+: res.ContentType.data))
    ∧ ("application/json".data <+: res.ContentType.data →
        getSSIDs w st = ((readAndDecode w res (requested st)).1,
          (readAndDecode w res (requested st)).2.record Event.bodyClose))
    ∧ (¬ ("application/json".data <+: res.ContentType.data) →
        (getSSIDs w st).2 = (requested st).record Event.bodyClose) := by
  have hrun := getSSIDs_response w st res hreq hres
  have hok : ¬ (res.StatusCode ≠ httpStatusOK) := by
    simp [hstatus, httpStatusOK]
  rw [if_neg hok] at hrun
  have hidx := stringsIndex_eq_zero res.ContentType jsonMimeType
  have hmime : jsonMimeType.data = "application/json".data := rfl
  rw [hmime] at hidx
  by_cases hp : "application/json".data <+: res.ContentType.data
  · have hbody : getSSIDsBody w res (requested st) = readAndDecode w res (requested st) := by
      unfold getSSIDsBody
      simp only []
      rw [if_neg (not_not.mpr (hidx.mpr hp))]
    rw [hbody] at hrun
    refine ⟨?_, fun _ => hrun, fun h => absurd hp h⟩
    constructor
    · intro h
      rw [hrun, ← contentType_error_text] at h
      exact absurd h (readAndDecode_error_text w res (requested st) res.ContentType)
    · intro h
      exact absurd hp h
  · have hbody : getSSIDsBody w res (requested st)
        = (some (sprintf "Content-Type %s returned instead of %s"
            [Arg.str res.ContentType, Arg.str jsonMimeType]), requested st) := by
      unfold getSSIDsBody
      simp only []
      rw [if_pos (fun h => hp (hidx.mp h))]
    rw [hbody, contentType_error_text] at hrun
    refine ⟨?_, fun h => absurd h hp, fun _ => ?_⟩
    · constructor
      · intro _; exact hp
      · intro _; rw [hrun]
    · rw [hrun]

/-- Witness for C5: `text/html` is rejected with the content type error and
`application/json; charset=utf-8` is accepted. -/
theorem getSSIDs_content_type_check_witness :
    (getSSIDs (sampleWorld none (sampleResponse 200 "text/html")) State.zero).1
        = some "Content-Type text/html returned instead of application/json"
    ∧ (getSSIDs (sampleWorld none (sampleResponse 200 "application/json; charset=utf-8"))
        State.zero).1 = none := by
  have reject := getSSIDs_content_type_check
    (sampleWorld none (sampleResponse 200 "text/html")) State.zero
    (sampleResponse 200 "text/html") rfl rfl rfl
  have accept := getSSIDs_content_type_check
    (sampleWorld none (sampleResponse 200 "application/json; charset=utf-8")) State.zero
    (sampleResponse 200 "application/json; charset=utf-8") rfl rfl rfl
  refine ⟨reject.1.mpr (by decide), ?_⟩
  rw [accept.2.1 (by decide)]
  rfl

/-- C6: for a response whose status code is not 200, whatever its content type
and body, `getSSIDs` returns the status error carrying the code received and
the code 200; the stored result `apResult` is unchanged and nothing but the two
request calls has happened (no read, no decode). -/
theorem getSSIDs_status_check (w : World) (st : State) (res : Response)
    (hreq : w.GetRequest st.xca "v1/aps" = none)
    (hres : w.PerformRequest st.xca "v1/aps" "inventory=true" = Except.ok res)
    (hstatus : res.StatusCode ≠ 200) :
    (getSSIDs w st).1
        = some ("got status code " ++ String.mk (fmtInteger res.StatusCode)
            ++ " instead of 200")
    ∧ (getSSIDs w st).2.apResult = st.apResult
    ∧ (getSSIDs w st).2.trace
        = st.trace ++ [Event.getRequest st.xca "v1/aps",
            Event.performRequest st.xca "v1/aps" "inventory=true"] := by
  have hrun := getSSIDs_response w st res hreq hres
  rw [if_pos (by simpa [httpStatusOK] using hstatus), status_error_text] at hrun
  rw [hrun]
  refine ⟨rfl, rfl, ?_⟩
  simp [requested, State.record]

/-- Witness for C6: status 404 with a JSON content type. -/
theorem getSSIDs_status_check_witness :
    (getSSIDs (sampleWorld none (sampleResponse 404 "application/json")) State.zero).1
        = some "got status code 404 instead of 200"
    ∧ (getSSIDs (sampleWorld none (sampleResponse 404 "application/json"))
        State.zero).2.apResult = [] := by
  have h := getSSIDs_status_check
    (sampleWorld none (sampleResponse 404 "application/json")) State.zero
    (sampleResponse 404 "application/json") rfl rfl (by decide)
  exact ⟨h.1, h.2.1⟩

/-- C7: on a response with status 404 `getSSIDs` returns the status error and
the response body is never closed, whereas on every response with status 200
the body is closed exactly once, whichever later step fails. -/
theorem getSSIDs_body_close_count :
    (getSSIDs (sampleWorld none (sampleResponse 404 "application/json")) State.zero).1
        = some "got status code 404 instead of 200"
    ∧ closeCount
        (getSSIDs (sampleWorld none (sampleResponse 404 "application/json")) State.zero).2 = 0
    ∧ (∀ (w : World) (st : State) (res : Response),
        w.GetRequest st.xca "v1/aps" = none →
        w.PerformRequest st.xca "v1/aps" "inventory=true" = Except.ok res →
        res.StatusCode ≠ 200 →
        closeCount (getSSIDs w st).2 = closeCount st)
    ∧ (∀ (w : World) (st : State) (res : Response),
        w.GetRequest st.xca "v1/aps" = none →
        w.PerformRequest st.xca "v1/aps" "inventory=true" = Except.ok res →
        res.StatusCode = 200 →
        closeCount (getSSIDs w st).2 = closeCount st + 1) := by
  refine ⟨by decide, by decide, ?_, ?_⟩
  · intro w st res hreq hres hstatus
    rw [getSSIDs_response w st res hreq hres,
      if_pos (by simpa [httpStatusOK] using hstatus)]
    exact closeCount_requested st
  · intro w st res hreq hres hstatus
    have hok : ¬ (res.StatusCode ≠ httpStatusOK) := by
      simp [hstatus, httpStatusOK]
    rw [getSSIDs_response w st res hreq hres, if_neg hok]
    simp only []
    rw [closeCount_record, closeCount_getSSIDsBody, closeCount_requested]
    simp

/-- C8: the client that `main` configures carries the timeout the library set,
whatever the configured timeout is: with a configured timeout of 30 seconds and
a library value of 5, `Authenticate` and the request calls run on a client
whose timeout is 5. -/
theorem main_ignores_configured_timeout :
    (∀ (w : World) (cfg : appConfig),
        (authState w cfg).xca.HTTPTimeout = w.libTimeout)
    ∧ (∀ (w : World) (cfg : appConfig) (t : Nat),
        (authState w { cfg with HTTPTimeout := t }).xca = (authState w cfg).xca)
    ∧ sampleConfig.HTTPTimeout = 30
    ∧ (main (sampleWorld none (sampleResponse 200 "application/json")) sampleConfig).2.trace
        = [Event.authenticate ⟨"xca.example", 5825, 5, true, "user", "secret",
              "BssidLister.go/0.2.0"⟩,
           Event.getRequest ⟨"xca.example", 5825, 5, true, "user", "secret",
              "BssidLister.go/0.2.0"⟩ "v1/aps",
           Event.performRequest ⟨"xca.example", 5825, 5, true, "user", "secret",
              "BssidLister.go/0.2.0"⟩ "v1/aps" "inventory=true",
           Event.bodyRead, Event.unmarshal "[]", Event.bodyClose,
           Event.stdout "\"serial\",\"radio\",\"bssid\",\"ssid\"\n"] := by
  refine ⟨fun _ _ => rfl, fun _ _ _ => rfl, rfl, by decide⟩

/-- C9: with the version flag not set, `main` exits with code 10 when
`Authenticate` fails, and then the fetch is never started; with code 11 when
`Authenticate` succeeds and `getSSIDs` fails; with code 0 when both succeed;
and whenever the exit code is 10 or 11, no line on standard output is the
header line or a data line. -/
theorem main_exit_codes (w : World) (cfg : appConfig) (hv : cfg.PrintVersion = false) :
    (∀ e, w.Authenticate (authState w cfg).xca = some e →
        (main w cfg).1 = 10
        ∧ (main w cfg).2.trace
            = [Event.authenticate (authState w cfg).xca,
               Event.stdout ("Could not authenticate: " ++ e ++ "\n")])
    ∧ (w.Authenticate (authState w cfg).xca = none →
        ∀ e, (getSSIDs w (authState w cfg)).1 = some e →
          (main w cfg).1 = 11
          ∧ stdoutOf (main w cfg).2 = ["Could not obtain AP list: " ++ e ++ "\n"])
    ∧ (w.Authenticate (authState w cfg).xca = none →
        (getSSIDs w (authState w cfg)).1 = none → (main w cfg).1 = 0)
    ∧ ((main w cfg).1 = 10 ∨ (main w cfg).1 = 11 →
        ∀ line ∈ stdoutOf (main w cfg).2,
          line ≠ "\"serial\",\"radio\",\"bssid\",\"ssid\"\n"
          ∧ ∀ (serial : String) (idx : Int) (wlan : WlanEntry),
              line ≠ dataRow serial idx wlan) := by
  have hmain := main_eq w cfg hv
  have hfetch := stdoutOf_getSSIDs w (authState w cfg)
  have hquiet : stdoutOf (authState w cfg) = [] := rfl
  cases ha : w.Authenticate (authState w cfg).xca with
  | some authErr =>
    rw [ha] at hmain
    simp only [printf, auth_error_text] at hmain
    refine ⟨?_, fun h => by simp at h, fun h => by simp at h, ?_⟩
    · intro e he
      cases he
      rw [hmain]
      exact ⟨rfl, rfl⟩
    · intro _ line hline
      rw [hmain] at hline
      have hout : stdoutOf ((authState w cfg).record
          (Event.stdout ("Could not authenticate: " ++ authErr ++ "\n")))
          = ["Could not authenticate: " ++ authErr ++ "\n"] := by
        rw [stdoutOf_record_stdout, hquiet]; rfl
      rw [hout, List.mem_singleton] at hline
      subst hline
      exact error_line_not_csv _
  | none =>
    rw [ha] at hmain
    simp only [] at hmain
    cases hg : getSSIDs w (authState w cfg) with
    | mk err st2 =>
      rw [hg] at hmain hfetch
      simp only [] at hfetch
      cases err with
      | some ssidErr =>
        simp only [printf, api_error_text] at hmain
        have hout : stdoutOf (main w cfg).2
            = ["Could not obtain AP list: " ++ ssidErr ++ "\n"] := by
          rw [hmain]
          show stdoutOf (st2.record _) = _
          rw [stdoutOf_record_stdout, hfetch, hquiet]; rfl
        refine ⟨fun e he => by simp at he, ?_, fun _ h => by simp at h, ?_⟩
        · intro _ e he
          cases he
          exact ⟨by rw [hmain]; rfl, hout⟩
        · intro _ line hline
          rw [hout, List.mem_singleton] at hline
          subst hline
          exact error_line_not_csv _
      | none =>
        simp only [] at hmain
        refine ⟨fun e he => by simp at he, fun _ e he => by simp at he,
          fun _ _ => by rw [hmain]; rfl, ?_⟩
        intro hcode
        rw [hmain] at hcode
        simp [errSuccess] at hcode

/-- Witness for C9: a failing `Authenticate` gives exit code 10, a 404 response
gives exit code 11, and a good response gives exit code 0. -/
theorem main_exit_codes_witness :
    sampleConfig.PrintVersion = false
    ∧ (main (sampleWorld (some "denied") (sampleResponse 200 "application/json"))
        sampleConfig).1 = 10
    ∧ (main (sampleWorld none (sampleResponse 404 "application/json")) sampleConfig).1 = 11
    ∧ (main (sampleWorld none (sampleResponse 200 "application/json")) sampleConfig).1 = 0 :=
  ⟨rfl,
   ((main_exit_codes (sampleWorld (some "denied") (sampleResponse 200 "application/json"))
      sampleConfig rfl).1 "denied" rfl).1,
   ((main_exit_codes (sampleWorld none (sampleResponse 404 "application/json"))
      sampleConfig rfl).2.1 rfl "got status code 404 instead of 200" (by decide)).1,
   (main_exit_codes (sampleWorld none (sampleResponse 200 "application/json"))
      sampleConfig rfl).2.2.1 rfl (by decide)⟩

/-- C10: `init` looks for `./.xcaenv` in the current directory, the name given
by `envFileName`, but in the home directory it looks for `.xmcenv`, which is
not the name `envFileName` that the usage text gives for both places. -/
theorem init_home_env_file :
    localEnvFile = "./" ++ envFileName
    ∧ (∀ homeDir : String, homeEnvFile homeDir = homeDir ++ "/.xmcenv")
    ∧ (∀ homeDir : String, usageHomeEnvFile homeDir = homeDir ++ "/" ++ envFileName)
    ∧ (∀ homeDir : String, homeEnvFile homeDir ≠ usageHomeEnvFile homeDir)
    ∧ initEnvFiles (Except.ok "/home/u") = ["./.xcaenv", "/home/u/.xmcenv"] := by
  have hhome : ∀ homeDir : String, homeEnvFile homeDir = homeDir ++ "/.xmcenv" := by
    intro homeDir
    apply String.ext
    simp [homeEnvFile, sprintf, sprintfAux, formatVerb]
  have husage : ∀ homeDir : String,
      usageHomeEnvFile homeDir = homeDir ++ "/" ++ envFileName := by
    intro homeDir
    apply String.ext
    simp [usageHomeEnvFile, sprintf, sprintfAux, formatVerb]
  refine ⟨by decide, hhome, husage, ?_, by decide⟩
  intro homeDir h
  rw [hhome, husage] at h
  have hdata := congrArg String.data h
  simp [envFileName] at hdata

end BssidLister
